import Mathlib

/-!
Verification model of the birth-chart web application (`app.py`).

Python floating-point arithmetic is idealised as exact rational
arithmetic (`ℚ`): `x % m` is modelled as `x - m * ⌊x / m⌋` (the sign of
the result follows the divisor, as in Python for a positive divisor),
and `round(x, 6)` is modelled as half-to-even rounding of `x * 10^6` to
an integer, divided by `10^6`.
-/

namespace BirthChart

/-- Python `x % m` for a positive divisor `m` (result in `[0, m)`). -/
def pymod (x m : ℚ) : ℚ := x - m * ⌊x / m⌋

/-- Round a rational to the nearest integer, ties to even
(the rounding used by Python `round`). -/
def rne (q : ℚ) : ℤ :=
  if q - ⌊q⌋ < 1/2 then ⌊q⌋
  else if 1/2 < q - ⌊q⌋ then ⌊q⌋ + 1
  else if ⌊q⌋ % 2 = 0 then ⌊q⌋ else ⌊q⌋ + 1

/-- Python `round(x, 6)`. -/
def roundTo6 (q : ℚ) : ℚ := (rne (q * 1000000) : ℚ) / 1000000

/-- The fixed zodiac-sign table `SIGNS` from `app.py`. -/
def SIGNS : List String :=
  ["Aries", "Taurus", "Gemini", "Cancer", "Leo", "Virgo",
   "Libra", "Scorpio", "Sagittarius", "Capricorn", "Aquarius", "Pisces"]

/-- Python list indexing `l[i]` with an integer index: negative indices
count from the end, and an index out of range yields `none`
(an `IndexError` in Python). -/
def pyIndex (l : List String) (i : ℤ) : Option String :=
  let j : ℤ := if i < 0 then (l.length : ℤ) + i else i
  if 0 ≤ j ∧ j < (l.length : ℤ) then l.get? j.toNat else none

/-- The dictionary returned by `deg_to_sign`. -/
structure ZodiacPos where
  lon : ℚ
  sign : String
  deg : ℚ
deriving DecidableEq

/-- The local variable `lon_deg` of `deg_to_sign` after the line
`lon_deg = lon_deg % 360.0`: the reduced longitude before rounding. -/
def lonExact (L : ℚ) : ℚ := pymod L 360

/-- The local variable `sign_idx = int(lon_deg // 30)` of `deg_to_sign`
(Python `//` on non-negative values is the floor). -/
def signIdx (L : ℚ) : ℤ := ⌊lonExact L / 30⌋

/-- The local variable `deg_in_sign = lon_deg - sign_idx * 30` of
`deg_to_sign`: the degree within the sign before rounding. -/
def degExact (L : ℚ) : ℚ := lonExact L - signIdx L * 30

/-- `deg_to_sign` from `app.py`: builds the dictionary
`{lon: round(lon_deg, 6), sign: SIGNS[sign_idx], deg: round(deg_in_sign, 6)}`;
`none` models an `IndexError` on `SIGNS[sign_idx]`. -/
def deg_to_sign (lon_deg : ℚ) : Option ZodiacPos :=
  match pyIndex SIGNS (signIdx lon_deg) with
  | none => none
  | some s =>
      some { lon := roundTo6 (lonExact lon_deg), sign := s,
             deg := roundTo6 (degExact lon_deg) }

/-- The value `deg_to_sign` produces when the sign lookup is in range. -/
def zodOf (L : ℚ) : ZodiacPos :=
  { lon := roundTo6 (lonExact L)
    sign := SIGNS.getD (signIdx L).toNat ""
    deg := roundTo6 (degExact L) }

lemma pymod_nonneg (x m : ℚ) (hm : 0 < m) : 0 ≤ pymod x m := by
  unfold pymod
  have h1 : ((⌊x / m⌋ : ℚ)) ≤ x / m := Int.floor_le _
  have h2 : m * (⌊x / m⌋ : ℚ) ≤ m * (x / m) :=
    mul_le_mul_of_nonneg_left h1 hm.le
  have h3 : m * (x / m) = x := by field_simp
  linarith

lemma pymod_lt (x m : ℚ) (hm : 0 < m) : pymod x m < m := by
  unfold pymod
  have h1 : x / m < (⌊x / m⌋ : ℚ) + 1 := Int.lt_floor_add_one _
  have h2 : m * (x / m) < m * ((⌊x / m⌋ : ℚ) + 1) :=
    mul_lt_mul_of_pos_left h1 hm
  have h3 : m * (x / m) = x := by field_simp
  nlinarith

lemma lonExact_nonneg (L : ℚ) : 0 ≤ lonExact L := pymod_nonneg L 360 (by norm_num)

lemma lonExact_lt (L : ℚ) : lonExact L < 360 := pymod_lt L 360 (by norm_num)

lemma signIdx_nonneg (L : ℚ) : 0 ≤ signIdx L := by
  unfold signIdx
  exact Int.floor_nonneg.mpr (div_nonneg (lonExact_nonneg L) (by norm_num))

lemma signIdx_lt (L : ℚ) : signIdx L < 12 := by
  unfold signIdx
  rw [Int.floor_lt]
  rw [div_lt_iff₀ (by norm_num : (0:ℚ) < 30)]
  have := lonExact_lt L
  push_cast
  linarith

lemma degExact_eq_pymod (L : ℚ) : degExact L = pymod (lonExact L) 30 := by
  unfold degExact signIdx pymod
  ring

lemma degExact_nonneg (L : ℚ) : 0 ≤ degExact L := by
  rw [degExact_eq_pymod]; exact pymod_nonneg _ 30 (by norm_num)

lemma degExact_lt (L : ℚ) : degExact L < 30 := by
  rw [degExact_eq_pymod]; exact pymod_lt _ 30 (by norm_num)

lemma signs_get?_lt (n : ℕ) (h : n < 12) : SIGNS.get? n = some (SIGNS.getD n "") := by
  interval_cases n <;> rfl

lemma pyIndex_signs (i : ℤ) (h0 : 0 ≤ i) (h1 : i < 12) :
    pyIndex SIGNS i = some (SIGNS.getD i.toNat "") := by
  unfold pyIndex
  have hlen : (SIGNS.length : ℤ) = 12 := by decide
  have hneg : ¬ i < 0 := not_lt.mpr h0
  simp only [hneg, if_false, hlen]
  rw [if_pos ⟨h0, h1⟩]
  exact signs_get?_lt i.toNat (by omega)

lemma deg_to_sign_eval (L lon : ℚ) (idx : ℤ) (d : ℚ) (s : String)
    (h1 : lonExact L = lon) (h2 : signIdx L = idx) (h3 : degExact L = d)
    (h4 : pyIndex SIGNS idx = some s) :
    deg_to_sign L = some { lon := roundTo6 lon, sign := s, deg := roundTo6 d } := by
  unfold deg_to_sign
  rw [h2, h1, h3, h4]

lemma deg_to_sign_eq (L : ℚ) : deg_to_sign L = some (zodOf L) := by
  have h := pyIndex_signs (signIdx L) (signIdx_nonneg L) (signIdx_lt L)
  unfold deg_to_sign
  rw [h]
  rfl

lemma pymod_add_self (L : ℚ) : pymod (L + 360) 360 = pymod L 360 := by
  unfold pymod
  have h : (L + 360) / 360 = L / 360 + 1 := by ring
  rw [h, Int.floor_add_one]
  push_cast
  ring

/-- C1 (amended): for every longitude `L`, the exact (pre-rounding) values
of `deg_to_sign` satisfy `sign_index * 30 + degree_in_sign ≡ L (mod 360)`,
with the exact degree-in-sign in `[0, 30)` and the exact reduced longitude
in `[0, 360)`; the returned fields are these values rounded to 6 decimal
places. -/
theorem deg_to_sign_invariant_c1 (L : ℚ) :
    (∃ k : ℤ, (30 * (signIdx L : ℚ) + degExact L) - L = 360 * k) ∧
    0 ≤ degExact L ∧ degExact L < 30 ∧
    0 ≤ lonExact L ∧ lonExact L < 360 ∧
    deg_to_sign L = some { lon := roundTo6 (lonExact L),
                           sign := SIGNS.getD (signIdx L).toNat "",
                           deg := roundTo6 (degExact L) } := by
  refine ⟨⟨-⌊L / 360⌋, ?_⟩, degExact_nonneg L, degExact_lt L,
    lonExact_nonneg L, lonExact_lt L, deg_to_sign_eq L⟩
  unfold degExact lonExact pymod
  push_cast
  ring

/-- C1 counterexample: at `L = 10⁻⁷` the returned fields are
`sign = "Aries"` (sign index 0) and `deg = 0`, and
`0 * 30 + 0` is not congruent to `10⁻⁷` modulo 360, so the claimed
invariant fails for the values actually returned. -/
theorem deg_to_sign_c1_counterexample :
    deg_to_sign (1/10000000 : ℚ) = some { lon := 0, sign := "Aries", deg := 0 } ∧
    SIGNS.get? 0 = some "Aries" ∧
    ¬ ∃ k : ℤ, ((0 : ℚ) * 30 + 0) - 1/10000000 = 360 * k := by
  refine ⟨?_, rfl, ?_⟩
  · have e1 : lonExact (1/10000000 : ℚ) = 1/10000000 := by
      unfold lonExact pymod; norm_num
    have e2 : signIdx (1/10000000 : ℚ) = 0 := by
      unfold signIdx; rw [e1]; norm_num
    have e3 : degExact (1/10000000 : ℚ) = 1/10000000 := by
      unfold degExact; rw [e1, e2]; norm_num
    have h := deg_to_sign_eval (1/10000000 : ℚ) (1/10000000) 0 (1/10000000)
      "Aries" e1 e2 e3 rfl
    rw [h]
    have r1 : roundTo6 (1/10000000 : ℚ) = 0 := by
      unfold roundTo6 rne; norm_num
    rw [r1]
  · rintro ⟨k, hk⟩
    have h2 : ((3600000000 * k : ℤ) : ℚ) = ((-1 : ℤ) : ℚ) := by
      push_cast
      linarith
    have h3 : (3600000000 : ℤ) * k = -1 := by exact_mod_cast h2
    omega

/-- C7: `deg_to_sign` is periodic with period 360:
`deg_to_sign (L + 360) = deg_to_sign L` for every longitude `L`. -/
theorem deg_to_sign_periodic_c7 (L : ℚ) : deg_to_sign (L + 360) = deg_to_sign L := by
  have h1 : lonExact (L + 360) = lonExact L := pymod_add_self L
  have h2 : signIdx (L + 360) = signIdx L := by unfold signIdx; rw [h1]
  have h3 : degExact (L + 360) = degExact L := by unfold degExact; rw [h1, h2]
  unfold deg_to_sign
  rw [h1, h2, h3]

/-- C8: `deg_to_sign` is total: for every longitude (negative or at or
beyond 360 included) the sign index lies in `0..11`, the `SIGNS` lookup
is in range, and an entry of the 12-name `SIGNS` list is returned. -/
theorem deg_to_sign_total_c8 (L : ℚ) :
    0 ≤ signIdx L ∧ signIdx L < 12 ∧
    deg_to_sign L = some (zodOf L) ∧ (zodOf L).sign ∈ SIGNS := by
  have ha := signIdx_nonneg L
  have hb := signIdx_lt L
  refine ⟨ha, hb, deg_to_sign_eq L, ?_⟩
  have h : ∀ n, n < 12 → SIGNS.getD n "" ∈ SIGNS := by decide
  exact h (signIdx L).toNat (by omega)

/-- C10: the fields returned by `deg_to_sign` are the reduced longitude
and the degree-in-sign rounded to 6 decimal places:
`lon = round(L mod 360, 6)` and `deg = round((L mod 360) - sign_idx * 30, 6)`. -/
theorem deg_to_sign_rounds_c10 (L : ℚ) :
    ∃ z, deg_to_sign L = some z ∧
      z.lon = roundTo6 (pymod L 360) ∧
      z.deg = roundTo6 (pymod L 360 - signIdx L * 30) :=
  ⟨zodOf L, deg_to_sign_eq L, rfl, rfl⟩

/-! ## Time normalizer (`local_to_utc` and CPython `strptime`) -/

/-- The characters stripped by Python `str.strip()` (ASCII whitespace). -/
def pyWs (c : Char) : Bool :=
  c = ' ' || c = '\t' || c = '\n' || c = '\r' || c = '\x0b' || c = '\x0c'

/-- Python `str.strip()`: remove leading and trailing whitespace. -/
def pyStrip (s : String) : String :=
  ⟨((s.toList.dropWhile pyWs).reverse.dropWhile pyWs).reverse⟩

/-- Numeric value of a decimal digit character. -/
def digitVal (c : Char) : ℕ := c.toNat - '0'.toNat

/-- `%Y` in CPython `strptime`: exactly four decimal digits. -/
def pYear : List Char → Option (ℕ × List Char)
  | a :: b :: c :: d :: rest =>
      if a.isDigit && b.isDigit && c.isDigit && d.isDigit then
        some (1000 * digitVal a + 100 * digitVal b + 10 * digitVal c + digitVal d, rest)
      else none
  | _ => none

/-- A one-or-two-digit numeric field of CPython `strptime`: a two-digit
match is preferred when its value satisfies `ok2`, otherwise a single
digit is accepted when its value satisfies `ok1` (backtracking of the
generated regex alternation). -/
def pNum2or1 (ok2 ok1 : ℕ → Bool) : List Char → Option (ℕ × List Char)
  | a :: b :: rest =>
      if a.isDigit && b.isDigit && ok2 (10 * digitVal a + digitVal b) then
        some (10 * digitVal a + digitVal b, rest)
      else if a.isDigit && ok1 (digitVal a) then some (digitVal a, b :: rest)
      else none
  | [a] => if a.isDigit && ok1 (digitVal a) then some (digitVal a, []) else none
  | [] => none

/-- `%m`: regex `1[0-2]|0[1-9]|[1-9]`. -/
def pMonth : List Char → Option (ℕ × List Char) :=
  pNum2or1 (fun v => decide (1 ≤ v) && decide (v ≤ 12)) (fun v => decide (1 ≤ v))

/-- `%d`: regex `3[01]|[1-2]\d|0[1-9]|[1-9]`. -/
def pDay : List Char → Option (ℕ × List Char) :=
  pNum2or1 (fun v => decide (1 ≤ v) && decide (v ≤ 31)) (fun v => decide (1 ≤ v))

/-- `%H`: regex `2[0-3]|[0-1]\d|\d`. -/
def pHour : List Char → Option (ℕ × List Char) :=
  pNum2or1 (fun v => decide (v ≤ 23)) (fun _ => true)

/-- `%M` and `%S`: regex `[0-5]\d|\d`. -/
def pMinSec : List Char → Option (ℕ × List Char) :=
  pNum2or1 (fun v => decide (v ≤ 59)) (fun _ => true)

/-- Match one literal character. -/
def pChar (c : Char) : List Char → Option (List Char)
  | x :: rest => if x = c then some rest else none
  | [] => none

/-- Whitespace in a `strptime` format string matches one or more
whitespace characters (`\s+`). -/
def pSpaces : List Char → Option (List Char)
  | x :: rest => if pyWs x then some (rest.dropWhile pyWs) else none
  | [] => none

/-- Gregorian leap year (as in Python `datetime`). -/
def isLeap (y : ℕ) : Bool := y % 4 = 0 && (y % 100 ≠ 0 || y % 400 = 0)

/-- Days in a month (as validated by the Python `datetime` constructor). -/
def daysInMonth (y m : ℕ) : ℕ :=
  if m = 2 then (if isLeap y then 29 else 28)
  else if m = 4 || m = 6 || m = 9 || m = 11 then 30
  else 31

/-- A naive or UTC `datetime` value. -/
structure Datetime where
  year : ℕ
  month : ℕ
  day : ℕ
  hour : ℕ
  minute : ℕ
  second : ℕ
deriving DecidableEq

/-- CPython `datetime.strptime` for the two formats used by `app.py`:
`"%Y-%m-%d %H:%M"` and, when `withSeconds` is true, `"%Y-%m-%d %H:%M:%S"`.
The whole string must be consumed, and the matched fields must form a
valid `datetime` (year at least 1, day within the month). -/
def strptime (withSeconds : Bool) (s : String) : Option Datetime := do
  let (y, r1) ← pYear s.toList
  let r2 ← pChar '-' r1
  let (mo, r3) ← pMonth r2
  let r4 ← pChar '-' r3
  let (d, r5) ← pDay r4
  let r6 ← pSpaces r5
  let (h, r7) ← pHour r6
  let r8 ← pChar ':' r7
  let (mi, r9) ← pMinSec r8
  if withSeconds then
    let r10 ← pChar ':' r9
    let (sec, r11) ← pMinSec r10
    if r11 = [] ∧ 1 ≤ y ∧ d ≤ daysInMonth y mo then
      pure ⟨y, mo, d, h, mi, sec⟩
    else none
  else
    if r9 = [] ∧ 1 ≤ y ∧ d ≤ daysInMonth y mo then
      pure ⟨y, mo, d, h, mi, 0⟩
    else none

/-- `local_to_utc` from `app.py`. The IANA timezone database and the
zone-rule conversion performed by `astimezone` are external to the
program and are passed in as `zones`: a known zone name yields the
total local-to-UTC conversion function of that zone, an unknown name
yields `none` (a `ZoneInfoNotFoundError`). The format is chosen by the
length of the stripped string, and the stripped string is parsed. -/
def local_to_utc (zones : String → Option (Datetime → Datetime))
    (local_dt_str tz_name : String) : Except String Datetime :=
  match strptime (decide (16 < (pyStrip local_dt_str).length)) (pyStrip local_dt_str) with
  | none => Except.error "time data does not match format"
  | some naive =>
      match zones tz_name with
      | none => Except.error ("No time zone found with key " ++ tz_name)
      | some toUtc => Except.ok (toUtc naive)

/-- A concrete one-zone timezone database for closed instances. -/
def zonesUTC : String → Option (Datetime → Datetime) :=
  fun n => if n = "UTC" then some (fun d => d) else none

/-- C5 (amended): the Time Normalizer selects the seconds-bearing format
exactly when the stripped string has length above 16, and it fails
exactly when the stripped string does not match the selected format or
the timezone name is unknown. -/
theorem local_to_utc_error_iff_c5 (zones : String → Option (Datetime → Datetime))
    (s tzn : String) :
    (∃ e, local_to_utc zones s tzn = Except.error e) ↔
      (strptime (decide (16 < (pyStrip s).length)) (pyStrip s) = none ∨
        zones tzn = none) := by
  unfold local_to_utc
  cases h1 : strptime (decide (16 < (pyStrip s).length)) (pyStrip s) with
  | none => simp [h1]
  | some dt =>
      cases h2 : zones tzn with
      | none => simp [h1, h2]
      | some f => simp [h1, h2]

/-- C5 counterexample: `"2020-01-01 23:59 "` (trailing blank) has raw
length 17 (above 16) and matches neither format, so per the claim the
seconds format is selected and a parse error is raised; the code strips
the string first, selects the minutes format, and succeeds. -/
theorem local_to_utc_c5_counterexample :
    16 < "2020-01-01 23:59 ".length ∧
    strptime true "2020-01-01 23:59 " = none ∧
    strptime false "2020-01-01 23:59 " = none ∧
    (zonesUTC "UTC").isSome = true ∧
    local_to_utc zonesUTC "2020-01-01 23:59 " "UTC" =
      Except.ok ⟨2020, 1, 1, 23, 59, 0⟩ := by
  refine ⟨by decide, by decide, by decide, rfl, rfl⟩

/-! ## House-cusp adapter -/

/-- The cusp-shape handling of `chart` in `app.py`: a 13-entry array is
1-based (`cusps_list[1:13]`), any array of length at least 12 is 0-based
(`cusps_list[:12]`), anything shorter raises a `RuntimeError`. -/
def adaptCusps (cusps_list : List ℚ) : Except String (List ℚ) :=
  if cusps_list.length = 13 then Except.ok (cusps_list.drop 1)
  else if 12 ≤ cusps_list.length then Except.ok (cusps_list.take 12)
  else Except.error ("Unexpected cusps length: " ++ toString cusps_list.length)

/-- The `house_cusps` dictionary of `chart`:
keys `"1".."12"`, values `deg_to_sign(cusps_12[i])`. -/
def buildHouseCusps (cusps12 : List ℚ) : List (String × Option ZodiacPos) :=
  (List.range 12).map (fun i => (toString (i + 1), deg_to_sign (cusps12.getD i 0)))

/-- C3: a 12-entry cusp array `C` and the 13-entry array `x :: C` are
adapted to the same `cusps_12` list (namely `C`), hence to the same
`house_cusps` mapping, and house `i` is derived from `C[i-1]`. -/
theorem cusp_shapes_agree_c3 (C : List ℚ) (x : ℚ) (h : C.length = 12) :
    adaptCusps C = Except.ok C ∧
    adaptCusps (x :: C) = Except.ok C ∧
    ∀ i : ℕ, 1 ≤ i → i ≤ 12 →
      (buildHouseCusps C).get? (i - 1) =
        some (toString i, deg_to_sign (C.getD (i - 1) 0)) := by
  have htake : C.take 12 = C := by rw [← h]; exact C.take_length
  refine ⟨?_, ?_, ?_⟩
  · unfold adaptCusps
    rw [h]
    norm_num [htake]
  · unfold adaptCusps
    have h13 : (x :: C).length = 13 := by simp [h]
    rw [h13]
    norm_num
  · intro i h1 h2
    unfold buildHouseCusps
    rw [List.get?_map, List.get?_range (by omega : i - 1 < 12)]
    have hi : i - 1 + 1 = i := by omega
    simp [hi]

/-- Witness for C3 at the concrete 12-entry array `replicate 12 0` and
head element `5`. -/
theorem cusp_shapes_agree_c3_witness :
    adaptCusps (List.replicate 12 (0:ℚ)) = Except.ok (List.replicate 12 (0:ℚ)) ∧
    adaptCusps ((5:ℚ) :: List.replicate 12 (0:ℚ)) = Except.ok (List.replicate 12 (0:ℚ)) ∧
    (buildHouseCusps (List.replicate 12 (0:ℚ))).get? 0 =
      some (toString 1, deg_to_sign ((List.replicate 12 (0:ℚ)).getD 0 0)) := by
  have h := cusp_shapes_agree_c3 (List.replicate 12 (0:ℚ)) 5 (by simp)
  exact ⟨h.1, h.2.1, h.2.2 1 (by omega) (by omega)⟩

/-- C4 (amended): the adapter fails with a structural error exactly when
the cusp array has fewer than 12 entries; arrays of length 12 or more
never fail (length 13 is treated as 1-based, any other length of at
least 12 is truncated to its first 12 entries). -/
theorem adaptCusps_error_iff_c4 (cs : List ℚ) :
    (∃ e, adaptCusps cs = Except.error e) ↔ cs.length < 12 := by
  unfold adaptCusps
  split_ifs with h1 h2
  · simp
    omega
  · simp
    omega
  · simp
    omega

/-- C4 counterexample: a 14-entry cusp array matches neither recognized
shape (length 12 or 13), yet the adapter succeeds, truncating to the
first 12 entries instead of raising a structural error. -/
theorem adaptCusps_c4_counterexample :
    (List.replicate 14 (0:ℚ)).length ≠ 12 ∧
    (List.replicate 14 (0:ℚ)).length ≠ 13 ∧
    adaptCusps (List.replicate 14 (0:ℚ)) = Except.ok (List.replicate 12 (0:ℚ)) := by
  refine ⟨by simp, by simp, ?_⟩
  rfl

/-! ## JSON values and Python `float()` conversion -/

/-- A JSON value as it may appear in a request payload field. -/
inductive JVal where
  | jnum (q : ℚ)
  | jstr (s : String)
  | jbool (b : Bool)
  | jnull
  | jarr
  | jobj

/-- Digits to a natural number. -/
def natOfDigits (ds : List Char) : ℕ := ds.foldl (fun a c => 10 * a + digitVal c) 0

/-- An unsigned decimal literal `digits[.digits]` with at least one digit
(the decimal forms accepted by Python `float()`; the exponent,
`inf` and `nan` forms are not modelled). -/
def parseUFloat (cs : List Char) : Option ℚ :=
  match cs.dropWhile Char.isDigit with
  | [] => if cs.takeWhile Char.isDigit = [] then none else some (natOfDigits cs)
  | '.' :: r2 =>
      if r2.dropWhile Char.isDigit = [] ∧
          (cs.takeWhile Char.isDigit ≠ [] ∨ r2.takeWhile Char.isDigit ≠ []) then
        some ((natOfDigits (cs.takeWhile Char.isDigit) : ℚ) +
          (natOfDigits (r2.takeWhile Char.isDigit) : ℚ) / (10 : ℚ) ^ (r2.takeWhile Char.isDigit).length)
      else none
  | _ => none

/-- Python `float(s)` on a string: strip whitespace, optional sign,
decimal literal. -/
def pyFloatOfString (s : String) : Option ℚ :=
  match (pyStrip s).toList with
  | '+' :: rest => parseUFloat rest
  | '-' :: rest => (parseUFloat rest).map (fun q => -q)
  | cs => parseUFloat cs

/-- Python `float(v)` on a JSON value: numbers and booleans convert,
strings parse as decimal literals, anything else raises a `TypeError`. -/
def pyFloatV : JVal → Except String ℚ
  | JVal.jnum q => Except.ok q
  | JVal.jbool b => Except.ok (if b then 1 else 0)
  | JVal.jstr s =>
      match pyFloatOfString s with
      | some q => Except.ok q
      | none => Except.error ("could not convert string to float: " ++ s)
  | JVal.jnull => Except.error "float() argument must be a string or a real number, not NoneType"
  | JVal.jarr => Except.error "float() argument must be a string or a real number, not list"
  | JVal.jobj => Except.error "float() argument must be a string or a real number, not dict"

/-- Python `float(d.get(k))`: a missing key gives `float(None)`,
a `TypeError`. -/
def pyFloat : Option JVal → Except String ℚ
  | none => Except.error "float() argument must be a string or a real number, not NoneType"
  | some v => pyFloatV v

/-! ## Geocoding adapter (`resolve_place`) -/

/-- One entry of the geocoding service `results` array; every field the
endpoint reads is optional in the service response. -/
structure GeoRec where
  name : Option String
  admin1 : Option String
  country : Option String
  latitude : Option JVal
  longitude : Option JVal
  timezone : Option String

/-- The parsed JSON body of a successful geocoding response:
the `results` field may be absent or null (`none`). -/
structure GeoData where
  results : Option (List GeoRec)

/-- Outcome of the outbound geocoding call: a network error, a non-2xx
status (`raise_for_status`) or an unparseable body are all `failure`;
otherwise the parsed JSON body. -/
inductive SvcOutcome where
  | failure (msg : String)
  | success (data : GeoData)

/-- A normalized place candidate as returned by `resolve_place`. -/
structure PlaceCandidate where
  display_name : String
  lat : ℚ
  lon : ℚ
  tz : String

/-- Response of `resolve_place`: a JSON list with HTTP 200, or the
structured error object with HTTP 500. -/
inductive ResolveResp where
  | okList (candidates : List PlaceCandidate)
  | err (msg whereTag : String)

/-- Python f-string interpolation of a possibly missing value. -/
def optStr : Option String → String
  | none => "None"
  | some s => s

/-- Python `x or default` for an optional string (missing and empty are
both falsy). -/
def pyOrStr (o : Option String) (d : String) : String :=
  match o with
  | none => d
  | some s => if s = "" then d else s

/-- Python `str.strip(",")`. -/
def pyStripComma (s : String) : String :=
  ⟨((s.toList.dropWhile (· = ',')).reverse.dropWhile (· = ',')).reverse⟩

/-- The `display_name` built by `resolve_place`:
`f"{name}, {admin1 or ''} {country or ''}".replace("  ", " ").strip().strip(",")`. -/
def display_name (r : GeoRec) : String :=
  pyStripComma (pyStrip
    ((optStr r.name ++ ", " ++ pyOrStr r.admin1 "" ++ " " ++ pyOrStr r.country "").replace "  " " "))

/-- Python `r[k]`: a missing key raises a `KeyError`. -/
def dictItem (field : String) (o : Option JVal) : Except String JVal :=
  match o with
  | none => Except.error field
  | some v => Except.ok v

/-- The candidate-building loop of `resolve_place`; any `KeyError` or
failed `float()` conversion aborts the whole request. -/
def buildCandidates : List GeoRec → Except String (List PlaceCandidate)
  | [] => Except.ok []
  | r :: rest => do
      let latv ← dictItem "latitude" r.latitude
      let lat ← pyFloatV latv
      let lonv ← dictItem "longitude" r.longitude
      let lon ← pyFloatV lonv
      let rest2 ← buildCandidates rest
      Except.ok ({ display_name := display_name r, lat := lat, lon := lon,
                   tz := pyOrStr r.timezone "UTC" } :: rest2)

/-- `resolve_place` from `app.py`, as a function of the outcome of the
geocoding call: `results = data.get("results") or []`, then the
candidate loop; any exception becomes the 500 error object. -/
def resolve_place : SvcOutcome → ResolveResp
  | SvcOutcome.failure m => ResolveResp.err m "resolve_place"
  | SvcOutcome.success data =>
      match buildCandidates (data.results.getD []) with
      | Except.error m => ResolveResp.err m "resolve_place"
      | Except.ok out => ResolveResp.okList out

/-- C6: when the geocoding service responds successfully with zero
matches (absent or null `results`), `resolve_place` returns the empty
candidate list with success status, not an error object. -/
theorem resolve_place_empty_c6 (d : GeoData)
    (h : d.results = none ∨ d.results = some []) :
    resolve_place (SvcOutcome.success d) = ResolveResp.okList [] := by
  rcases h with h | h <;> simp [resolve_place, h, buildCandidates]

/-- Witness for C6 at the concrete body with an absent `results` field. -/
theorem resolve_place_empty_c6_witness :
    resolve_place (SvcOutcome.success ⟨none⟩) = ResolveResp.okList [] :=
  resolve_place_empty_c6 ⟨none⟩ (Or.inl rfl)

/-! ## Chart endpoint (`chart`) -/

/-- Result shape of `swe.houses_ex`, which varies by engine build:
a `(cusps, ascmc)` pair or the cusps alone. -/
inductive HousesRes where
  | pairRes (cusps ascmc : List ℚ)
  | single (cusps : List ℚ)

/-- The environment of the chart endpoint: the ephemeris-directory check
and the external ephemeris engine, external to this program's logic. -/
structure Env where
  epheOk : Bool
  epheErrMsg : String
  ephePath : String
  zones : String → Option (Datetime → Datetime)
  julday : ℕ → ℕ → ℕ → ℚ → ℚ
  calcUt : ℚ → ℕ → ℚ
  housesEx : ℚ → ℚ → ℚ → String → HousesRes

/-- The JSON body of `POST /api/chart`, an untyped dict in the source:
each field may be absent. -/
structure ChartPayload where
  local_datetime : Option String
  tz : Option String
  lat : Option JVal
  lon : Option JVal
  house_system : Option String

/-- The assembled `ChartResult` JSON document. -/
structure ChartResult where
  code_version : String
  local_datetime : String
  tz : String
  utc_datetime : Datetime
  lat : ℚ
  lon : ℚ
  jd_ut : ℚ
  ephe_path : String
  house_system : String
  asc : Option ZodiacPos
  mc : Option ZodiacPos
  planets : List (String × ZodiacPos)
  house_cusps : List (String × ZodiacPos)

/-- Response of the chart endpoint: 200 result, 400 validation error, or
the 500 error object tagged with its endpoint. -/
inductive ChartResp where
  | ok (result : ChartResult)
  | badRequest (msg : String)
  | serverError (msg whereTag : String)

/-- HTTP status of a chart response. -/
def statusOf : ChartResp → ℕ
  | ChartResp.ok _ => 200
  | ChartResp.badRequest _ => 400
  | ChartResp.serverError _ _ => 500

/-- Whether a response is the `\x7berror, where: "chart"\x7d` object. -/
def errorWhereChart : ChartResp → Bool
  | ChartResp.serverError _ w => w == "chart"
  | _ => false

/-- Python truthiness of `payload.get(k)` for a string field:
absent (`None`) and the empty string are falsy. -/
def pyTruthy : Option String → Bool
  | none => false
  | some s => !(s == "")

/-- The `PLANETS` table from `app.py` with the `swisseph` body numbers
(`SUN = 0` .. `PLUTO = 9`, `TRUE_NODE = 11`). -/
def PLANETS : List (String × ℕ) :=
  [("Sun", 0), ("Moon", 1), ("Mercury", 2), ("Venus", 3), ("Mars", 4),
   ("Jupiter", 5), ("Saturn", 6), ("Uranus", 7), ("Neptune", 8),
   ("Pluto", 9), ("TrueNode", 11)]

/-- `utc_to_jd_ut` from `app.py`: fractional hour
`hour + minute/60 + second/3600` passed to `swe.julday`. -/
def utc_to_jd_ut (env : Env) (dt : Datetime) : ℚ :=
  env.julday dt.year dt.month dt.day
    ((dt.hour : ℚ) + (dt.minute : ℚ) / 60 + (dt.second : ℚ) / 3600)

/-- The per-planet loop of `chart`: one `swe.calc_ut` call per body,
keeping the longitude `xx[0]`; returns the number of engine calls made
and the outcome. -/
def calcPlanets (env : Env) (jd : ℚ) :
    List (String × ℕ) → ℕ × Except String (List (String × ZodiacPos))
  | [] => (0, Except.ok [])
  | (n, pid) :: rest =>
      match deg_to_sign (env.calcUt jd pid) with
      | none => (1, Except.error "list index out of range")
      | some z =>
          match calcPlanets env jd rest with
          | (c, Except.error e) => (c + 1, Except.error e)
          | (c, Except.ok l) => (c + 1, Except.ok ((n, z) :: l))

/-- Python `str.upper()` (character-wise). -/
def pyUpper (s : String) : String := s.map Char.toUpper

/-- `hsys = (payload.get("house_system") or "P").upper()[:1]`. -/
def resolveHsys (o : Option String) : String := (pyUpper (pyOrStr o "P")).take 1

/-- `hsys.encode("ascii")` succeeds exactly on ASCII strings. -/
def asciiOk (s : String) : Bool := s.all (fun c => decide (c.toNat < 128))

/-- Collect the `house_cusps` values, failing if any `deg_to_sign`
lookup raised. -/
def seqHouseCusps : List (String × Option ZodiacPos) → Except String (List (String × ZodiacPos))
  | [] => Except.ok []
  | (_, none) :: _ => Except.error "list index out of range"
  | (k, some z) :: rest =>
      match seqHouseCusps rest with
      | Except.error e => Except.error e
      | Except.ok l => Except.ok ((k, z) :: l)

/-- `deg_to_sign(ascmc[i]) if (ascmc and len(ascmc) >= i+1) else None`. -/
def angleAt (ascmc : Option (List ℚ)) (i : ℕ) : Except String (Option ZodiacPos) :=
  match ascmc with
  | none => Except.ok none
  | some a =>
      if a.length = 0 ∨ a.length < i + 1 then Except.ok none
      else
        match deg_to_sign (a.getD i 0) with
        | none => Except.error "list index out of range"
        | some z => Except.ok (some z)

/-- The tail of `chart` after the `swe.houses_ex` call: cusp-shape
adaptation, the `house_cusps` dictionary, the angles, and the response
document. The second component counts engine calls made so far. -/
def chartAssemble (env : Env) (lds tzn : String) (lat lon jd_ut : ℚ)
    (utc_dt : Datetime) (hsys : String) (pc : ℕ)
    (planets_out : List (String × ZodiacPos))
    (cusps : List ℚ) (ascmc : Option (List ℚ)) : ChartResp × ℕ :=
  match adaptCusps cusps with
  | Except.error e => (ChartResp.serverError e "chart", 2 + pc)
  | Except.ok cusps12 =>
      match seqHouseCusps (buildHouseCusps cusps12) with
      | Except.error e => (ChartResp.serverError e "chart", 2 + pc)
      | Except.ok house_cusps =>
          match angleAt ascmc 0 with
          | Except.error e => (ChartResp.serverError e "chart", 2 + pc)
          | Except.ok asc =>
              match angleAt ascmc 1 with
              | Except.error e => (ChartResp.serverError e "chart", 2 + pc)
              | Except.ok mc =>
                  (ChartResp.ok
                    { code_version := "stable-v1"
                      local_datetime := lds
                      tz := tzn
                      utc_datetime := utc_dt
                      lat := lat
                      lon := lon
                      jd_ut := jd_ut
                      ephe_path := env.ephePath
                      house_system := hsys
                      asc := asc
                      mc := mc
                      planets := planets_out
                      house_cusps := house_cusps }, 2 + pc)

/-- The `POST /api/chart` handler from `app.py`. Order follows the
source: `ensure_ephe_present()`, `float()` conversions of `lat` and
`lon`, the missing-field validation, time conversion, the planet loop,
the house-system letter, `swe.houses_ex`, shape adaptation, assembly.
Every exception is caught and becomes the 500 error object tagged
`"chart"`. The second component counts ephemeris-engine calls
(`julday`, `calc_ut`, `houses_ex`). -/
def chart (env : Env) (payload : ChartPayload) : ChartResp × ℕ :=
  if env.epheOk = false then (ChartResp.serverError env.epheErrMsg "chart", 0)
  else
    match pyFloat payload.lat with
    | Except.error e => (ChartResp.serverError e "chart", 0)
    | Except.ok lat =>
        match pyFloat payload.lon with
        | Except.error e => (ChartResp.serverError e "chart", 0)
        | Except.ok lon =>
            if !pyTruthy payload.local_datetime || !pyTruthy payload.tz then
              (ChartResp.badRequest "Missing local_datetime or tz", 0)
            else
              match local_to_utc env.zones (payload.local_datetime.getD "")
                  (payload.tz.getD "") with
              | Except.error e => (ChartResp.serverError e "chart", 0)
              | Except.ok utc_dt =>
                  match calcPlanets env (utc_to_jd_ut env utc_dt) PLANETS with
                  | (pc, Except.error e) => (ChartResp.serverError e "chart", 1 + pc)
                  | (pc, Except.ok planets_out) =>
                      if !asciiOk (resolveHsys payload.house_system) then
                        (ChartResp.serverError "ascii codec cannot encode character" "chart",
                          1 + pc)
                      else
                        match env.housesEx (utc_to_jd_ut env utc_dt) lat lon
                            (resolveHsys payload.house_system) with
                        | HousesRes.pairRes cusps ascmc =>
                            chartAssemble env (payload.local_datetime.getD "")
                              (payload.tz.getD "") lat lon (utc_to_jd_ut env utc_dt)
                              utc_dt (resolveHsys payload.house_system) pc planets_out
                              cusps (some ascmc)
                        | HousesRes.single cusps =>
                            chartAssemble env (payload.local_datetime.getD "")
                              (payload.tz.getD "") lat lon (utc_to_jd_ut env utc_dt)
                              utc_dt (resolveHsys payload.house_system) pc planets_out
                              cusps none

/-- A concrete environment with a working ephemeris setup. -/
def envTriv : Env :=
  { epheOk := true
    epheErrMsg := "EPHE_PATH not found"
    ephePath := "ephe"
    zones := zonesUTC
    julday := fun _ _ _ _ => 0
    calcUt := fun _ _ => 0
    housesEx := fun _ _ _ _ => HousesRes.single (List.replicate 12 0) }

/-- The empty request body. -/
def emptyPayload : ChartPayload := ⟨none, none, none, none, none⟩

/-- C2 (amended): when the ephemeris-directory check passes and `lat`
and `lon` are present and convertible, a request missing
`local_datetime` or `tz` gets the 400 validation response, with zero
ephemeris-engine calls made. -/
theorem chart_missing_fields_c2 (env : Env) (p : ChartPayload)
    (hE : env.epheOk = true)
    (hlat : ∃ q, pyFloat p.lat = Except.ok q)
    (hlon : ∃ q, pyFloat p.lon = Except.ok q)
    (hmiss : p.local_datetime = none ∨ p.tz = none) :
    chart env p = (ChartResp.badRequest "Missing local_datetime or tz", 0) ∧
    statusOf (chart env p).1 = 400 := by
  obtain ⟨a, ha⟩ := hlat
  obtain ⟨b, hb⟩ := hlon
  have key : chart env p = (ChartResp.badRequest "Missing local_datetime or tz", 0) := by
    unfold chart
    rw [hE, ha, hb]
    rcases hmiss with h | h <;> simp [h, pyTruthy]
  exact ⟨key, by rw [key]; rfl⟩

/-- Witness for C2 (amended) at a concrete payload with numeric `lat`
and `lon` and a missing `tz`. -/
theorem chart_missing_fields_c2_witness :
    chart envTriv
        { local_datetime := some "2020-01-01 00:00", tz := none,
          lat := some (JVal.jnum 1), lon := some (JVal.jnum 2),
          house_system := none } =
      (ChartResp.badRequest "Missing local_datetime or tz", 0) ∧
    statusOf (chart envTriv
        { local_datetime := some "2020-01-01 00:00", tz := none,
          lat := some (JVal.jnum 1), lon := some (JVal.jnum 2),
          house_system := none }).1 = 400 :=
  chart_missing_fields_c2 envTriv _ rfl ⟨1, rfl⟩ ⟨2, rfl⟩ (Or.inr rfl)

/-- C2 counterexample: the empty body `\x7b\x7d` is missing `tz` (and
everything else), yet the response is the 500 error object, not a 400
client error: `float(payload.get("lat"))` raises before the validation
check runs. -/
theorem chart_c2_counterexample :
    emptyPayload.tz = none ∧
    chart envTriv emptyPayload =
      (ChartResp.serverError
        "float() argument must be a string or a real number, not NoneType" "chart", 0) ∧
    statusOf (chart envTriv emptyPayload).1 = 500 :=
  ⟨rfl, rfl, rfl⟩

/-- C9: with `local_datetime` and `tz` present but `lat` or `lon`
failing `float()` conversion (missing included), the response is the
500 `\x7berror, where: "chart"\x7d` object rather than a 400 validation
response, and no engine call is made. -/
theorem chart_latlon_500_c9 (env : Env) (p : ChartPayload)
    (_h1 : p.local_datetime.isSome = true) (_h2 : p.tz.isSome = true)
    (h3 : (∃ e, pyFloat p.lat = Except.error e) ∨ (∃ e, pyFloat p.lon = Except.error e)) :
    errorWhereChart (chart env p).1 = true ∧
    statusOf (chart env p).1 = 500 ∧
    (chart env p).2 = 0 := by
  unfold chart
  by_cases hE : env.epheOk = false
  · simp [hE, errorWhereChart, statusOf]
  · rw [Bool.not_eq_false] at hE
    cases hl : pyFloat p.lat with
    | error e => simp [hE, hl, errorWhereChart, statusOf]
    | ok a =>
        rcases h3 with ⟨e, he⟩ | ⟨e, he⟩
        · rw [he] at hl
          exact absurd hl (by simp)
        · simp [hE, hl, he, errorWhereChart, statusOf]

/-- Witness for C9 at a concrete payload whose `lat` field is absent. -/
theorem chart_latlon_500_c9_witness :
    errorWhereChart (chart envTriv
      { local_datetime := some "2020-01-01 00:00", tz := some "UTC",
        lat := none, lon := some (JVal.jnum 0), house_system := none }).1 = true ∧
    statusOf (chart envTriv
      { local_datetime := some "2020-01-01 00:00", tz := some "UTC",
        lat := none, lon := some (JVal.jnum 0), house_system := none }).1 = 500 ∧
    (chart envTriv
      { local_datetime := some "2020-01-01 00:00", tz := some "UTC",
        lat := none, lon := some (JVal.jnum 0), house_system := none }).2 = 0 :=
  chart_latlon_500_c9 envTriv _ rfl rfl (Or.inl ⟨_, rfl⟩)

end BirthChart
